import Mathlib

/-!
Verification development for two stress-ng stressors:
`src/stress-schedpolicy.c` (scheduling-policy churner) and
`src/stress-sighup.c` (SIGHUP delivery-latency stressor).

The C code is shallowly embedded: each relevant function or code region
becomes an executable Lean definition over explicit state and an explicit
environment of syscall results.  C `double` timestamps are modelled as
exact rationals (the embedded claims only depend on sign tests and on the
guard structure of the code, not on rounding).  Machine integers are
modelled as `Int`/`Nat`; the only modular step (the 32-bit random source)
is modelled by quantifying the random value over `[0, 2^32)`.
-/

namespace StressNG

/-- C standard exit status for success. -/
def EXIT_SUCCESS : Int := 0

/-- C standard exit status for failure (value 1, as used via `EXIT_FAILURE`). -/
def EXIT_FAILURE : Int := 1

/-- Modelled from the spec: the distinct "not implemented" exit status defined
in the stress-ng header (not under `src/`); the spec only requires it to be a
distinct status from success and failure, the concrete numeral is the
header's value 4. -/
def EXIT_NOT_IMPLEMENTED : Int := 4

/-- Linux errno value for EPERM. -/
def EPERM : Int := 1

/-- Linux errno value for EINTR. -/
def EINTR : Int := 4

/-- Linux errno value for EINVAL. -/
def EINVAL : Int := 22

/-- Linux errno value for ENOSYS. -/
def ENOSYS : Int := 38

/-- Linux scheduling-policy constant SCHED_OTHER. -/
def SCHED_OTHER : Int := 0

/-- Linux scheduling-policy constant SCHED_FIFO. -/
def SCHED_FIFO : Int := 1

/-- Linux scheduling-policy constant SCHED_RR. -/
def SCHED_RR : Int := 2

/-- Linux scheduling-policy constant SCHED_BATCH. -/
def SCHED_BATCH : Int := 3

/-- Linux scheduling-policy constant SCHED_IDLE. -/
def SCHED_IDLE : Int := 5

namespace Sighup

/-- The shared measurement block `stress_sighup_info_t`
(`src/stress-sighup.c` lines 28-34); `double` fields are modelled as
rationals. -/
structure SighupInfo where
  signalled : Bool
  pid : Int
  count : Rat
  t_start : Rat
  latency : Rat
deriving DecidableEq

/-- The signal handler `stress_sighup_handler`
(`src/stress-sighup.c` lines 38-51).  `mapped` models the `if (sighup_info)`
null test on the shared mapping; `now` is the value returned by
`stress_time_now()` at the moment the handler runs. -/
def stress_sighup_handler (mapped : Bool) (now : Rat) (s : SighupInfo) : SighupInfo :=
  if mapped then
    if s.t_start > 0 ∧ now - s.t_start > 0 then
      { s with signalled := true,
               latency := s.latency + (now - s.t_start),
               count := s.count + 1 }
    else { s with signalled := true }
  else s

/-- Outcome of one `shim_waitpid` call as seen by the parent. -/
inductive WaitResult where
  | ok (status : Int)
  | err (errno : Int)
deriving DecidableEq

/-- Which `pr_fail` message a trial of `stress_sighup_raise_signal`
produced, if any. -/
inductive SighupFail where
  | waitpidFailed
  | handlerNotCalled
deriving DecidableEq

/-- The parent's wait-and-verify logic of `stress_sighup_raise_signal`
(`src/stress-sighup.c` lines 76-91): the `rewait:` loop retries the wait on
`EINTR`; a non-`EINTR` wait error is a hard failure; on a completed wait the
trial fails when the shared `signalled` flag was never set.  The list of
`WaitResult`s is the stream of outcomes of successive `shim_waitpid` calls;
`none` means every modelled outcome was `EINTR` and the code is still
retrying. -/
def raiseSignalWait (signalled : Bool) : List WaitResult → Option (Int × Option SighupFail)
  | [] => none
  | WaitResult.err e :: rest =>
      if e = EINTR then raiseSignalWait signalled rest
      else some (EXIT_FAILURE, some SighupFail.waitpidFailed)
  | WaitResult.ok _ :: _ =>
      if signalled = false then some (EXIT_FAILURE, some SighupFail.handlerNotCalled)
      else some (0, none)

/-- The parent's wait-and-cleanup logic of `stress_sighup_process_group`
(`src/stress-sighup.c` lines 155-168).  `recordedPid` is the value of
`sighup_info->pid` (child B's pid, or 0 when never recorded); the returned
`Bool` records whether `stress_kill_pid_wait` was invoked on that pid. -/
def processGroupWait (recordedPid : Int) : List WaitResult → Option (Int × Bool)
  | [] => none
  | WaitResult.err e :: rest =>
      if e = EINTR then processGroupWait recordedPid rest
      else some (EXIT_FAILURE, recordedPid != 0)
  | WaitResult.ok _ :: _ => some (0, recordedPid != 0)

/-- Observable actions of child A's pipe-probe branch in
`stress_sighup_process_group` (`src/stress-sighup.c` lines 143-150). -/
structure ChildAOut where
  t_startRecorded : Bool
  sigkilledSelf : Bool
deriving DecidableEq

/-- Child A's pipe-probe branch (`src/stress-sighup.c` lines 143-150):
`readRet` is the return value of `read(fds[0], &msg, 0)`; the branch that
records `trial_start_time` and raises SIGKILL against itself is taken
exactly when `readRet < 1`. -/
def childAProbe (readRet : Int) : ChildAOut :=
  if readRet < 1 then ⟨true, true⟩ else ⟨false, false⟩

/-- Modelled from the spec: the POSIX semantics of a zero-length pipe read
(`read(fd, buf, 0)`), which is outside this repository — it never blocks and
never transfers data, so its return value is at most 0. -/
def zeroLenReadSpec (r : Int) : Prop := r ≤ 0

end Sighup

namespace SchedPolicy

open Sighup in
/-- The full Linux instantiation of the platform-filtered `policies[]` table
(`src/stress-schedpolicy.c` lines 36-52): all five `#if defined` guards
hold. -/
def linuxPolicies : List Int := [SCHED_IDLE, SCHED_FIFO, SCHED_RR, SCHED_OTHER, SCHED_BATCH]

/-- The `policies[]` table on a platform where `SCHED_IDLE` is not defined
(the first `#if defined(SCHED_IDLE)` guard of lines 37-39 fails). -/
def noIdlePolicies : List Int := [SCHED_FIFO, SCHED_RR, SCHED_OTHER, SCHED_BATCH]

/-- Whether a policy constant takes the realtime arm of the `switch`
statement (`src/stress-schedpolicy.c` lines 96-110): `SCHED_RR` falls
through to the `SCHED_FIFO` case. -/
def isRealtime (p : Int) : Bool := p == SCHED_FIFO || p == SCHED_RR

/-- Environment of one loop iteration of `stress_schedpolicy`: the random
values drawn and the results the kernel would return for each syscall the
iteration may perform. -/
structure IterEnv where
  /-- `mwc1()` at line 80, choosing between pid 0 and the worker's pid. -/
  mwc1 : Bool
  /-- `mwc32()` at line 128 (callers supply a value below `2^32`). -/
  mwc32 : Nat
  /-- `sched_rr_get_interval` return value (line 102, `SCHED_RR` only). -/
  rrRet : Int
  /-- `sched_get_priority_min` result as a function of its argument (line 111). -/
  prioMin : Int → Int
  /-- `sched_get_priority_max` result as a function of its argument (line 112). -/
  prioMax : Int → Int
  /-- `sched_setscheduler` return value (lines 94 and 130). -/
  setRet : Int
  /-- `errno` after a failed `sched_setscheduler` (line 142). -/
  setErrno : Int
  /-- `sched_getscheduler` return value (line 150). -/
  getRet : Int
  /-- `sched_getparam` return value (line 163). -/
  getparamRet : Int
  /-- `errno` after a failed `sched_getparam` (line 164). -/
  getparamErrno : Int
  /-- `sched_setparam` return value (line 167). -/
  setparamRet : Int
  /-- `errno` after a failed `sched_setparam` (line 168). -/
  setparamErrno : Int
  /-- `shim_sched_getattr` return value (line 179). -/
  getattrRet : Int
  /-- `errno` after a failed `shim_sched_getattr` (line 181). -/
  getattrErrno : Int
  /-- `attr.sched_util_min` as filled in by a successful `sched_getattr`. -/
  attrMin : Nat
  /-- `attr.sched_util_max` as filled in by a successful `sched_getattr`. -/
  attrMax : Nat
  /-- `shim_sched_setattr` return value (line 207). -/
  setattrRet : Int
  /-- `errno` after a failed `shim_sched_setattr` (line 209). -/
  setattrErrno : Int

/-- The failure/error messages an iteration of `stress_schedpolicy`
can emit. -/
inductive FailEvent where
  /-- `pr_err` for a zero-width priority range (lines 120-126). -/
  | zeroPriorityRange
  /-- `pr_fail` for an unexpected `sched_setscheduler` error (lines 143-147). -/
  | setschedulerFailed
  /-- `pr_fail_err` for a failed `sched_getscheduler` (line 152). -/
  | getschedulerFailed
  /-- `pr_fail` for a policy mismatch after a successful set (lines 154-158). -/
  | policyMismatch
  /-- `pr_fail_err` for a failed `sched_getparam` (line 165). -/
  | getparamFailed
  /-- `pr_fail_err` for a failed `sched_setparam` (line 169). -/
  | setparamFailed
  /-- `pr_fail_err` for a failed `sched_getattr` (line 182). -/
  | getattrFailed
  /-- `pr_fail_err` for a failed `sched_setattr` (line 210). -/
  | setattrFailed
deriving DecidableEq

/-- The priority sampled for a realtime policy
(`src/stress-schedpolicy.c` line 128):
`param.sched_priority = (mwc32() % rng_prio) + min_prio` with
`rng_prio = max_prio - min_prio`.  Faithful to the C unsigned/int
conversions whenever `minP ≤ maxP`, the only case the surrounding code
reaches with `rng_prio ≠ 0` checked separately. -/
def sampledPriority (minP maxP : Int) (r : Nat) : Int :=
  (↑(r % (maxP - minP).toNat) : Int) + minP

/-- The check after the policy-set attempt
(`src/stress-schedpolicy.c` lines 136-160): a failed set with an errno
other than `EPERM`/`EINVAL` is reported; on a non-negative `ret` the
effective policy is re-queried with `sched_getscheduler` and compared with
`policies[policy]`. -/
def checkAfterSet (ps : List Int) (policy : Nat) (env : IterEnv) (ret : Int) : List FailEvent :=
  if ret < 0 then
    if env.setErrno ≠ EPERM ∧ env.setErrno ≠ EINVAL then [FailEvent.setschedulerFailed] else []
  else
    if env.getRet < 0 then [FailEvent.getschedulerFailed]
    else if env.getRet ≠ ps.getD policy 0 then [FailEvent.policyMismatch]
    else []

/-- Observable outcome of the `switch`-plus-check part of one loop iteration
(`src/stress-schedpolicy.c` lines 79-160). -/
structure IterOut where
  /-- True when the iteration hit the `continue` at line 116. -/
  skipped : Bool
  /-- The `pr_err`/`pr_fail` events of lines 79-160, in order. -/
  fails : List FailEvent
  /-- The argument passed to `sched_get_priority_min`/`max`
  (lines 111-112), when those calls were made. -/
  queriedRangePolicy : Option Int
  /-- The `(policy, priority)` pair passed to `sched_setscheduler`, when the
  call was made. -/
  setCalled : Option (Int × Int)

/-- The `switch` on `new_policy` plus the set/get consistency check of one
loop iteration (`src/stress-schedpolicy.c` lines 79-160).  `policy` is the
loop index into `ps = policies[]`; note that lines 111-112 pass this raw
index — not `new_policy = policies[policy]` — to the priority-range
queries.  In the zero-width-range arm the code `break`s with `ret` still
holding its earlier value (0, or the `sched_rr_get_interval` result for
`SCHED_RR`), so the lines 136-160 check still runs. -/
def schedIter (ps : List Int) (policy : Nat) (env : IterEnv) : IterOut :=
  let new_policy := ps.getD policy 0
  if isRealtime new_policy then
    let ret0 : Int := if new_policy = SCHED_RR then env.rrRet else 0
    let min_prio := env.prioMin (Int.ofNat policy)
    let max_prio := env.prioMax (Int.ofNat policy)
    if min_prio = -1 ∨ max_prio = -1 then
      { skipped := true, fails := [],
        queriedRangePolicy := some (Int.ofNat policy), setCalled := none }
    else
      let rng_prio := max_prio - min_prio
      if rng_prio = 0 then
        { skipped := false,
          fails := FailEvent.zeroPriorityRange :: checkAfterSet ps policy env ret0,
          queriedRangePolicy := some (Int.ofNat policy), setCalled := none }
      else
        { skipped := false,
          fails := checkAfterSet ps policy env env.setRet,
          queriedRangePolicy := some (Int.ofNat policy),
          setCalled := some (new_policy, sampledPriority min_prio max_prio env.mwc32) }
  else
    { skipped := false, fails := checkAfterSet ps policy env env.setRet,
      queriedRangePolicy := none, setCalled := some (new_policy, 0) }

/-- The `sched_getparam`/`sched_setparam` exercising block
(`src/stress-schedpolicy.c` lines 161-170): each failing call with an errno
other than `EINVAL`/`EPERM` is reported. -/
def paramChecks (env : IterEnv) : List FailEvent :=
  (if env.getparamRet < 0 ∧ env.getparamErrno ≠ EINVAL ∧ env.getparamErrno ≠ EPERM
    then [FailEvent.getparamFailed] else []) ++
  (if env.setparamRet < 0 ∧ env.setparamErrno ≠ EINVAL ∧ env.setparamErrno ≠ EPERM
    then [FailEvent.setparamFailed] else [])

/-- The error reporting of the `sched_getattr`/`sched_setattr` block
(`src/stress-schedpolicy.c` lines 177-212): a failing call with an errno
other than `ENOSYS` is reported. -/
def attrChecks (env : IterEnv) : List FailEvent :=
  (if env.getattrRet < 0 ∧ env.getattrErrno ≠ ENOSYS
    then [FailEvent.getattrFailed] else []) ++
  (if env.setattrRet < 0 ∧ env.setattrErrno ≠ ENOSYS
    then [FailEvent.setattrFailed] else [])

/-- The utilization clamp fields of `attr` as read back by the iteration:
`attr` is `memset` to zero at line 177, so on a failed `sched_getattr` both
fields stay 0; on success the kernel fills them in. -/
structure AttrIn where
  aMin : Nat
  aMax : Nat
deriving DecidableEq

/-- The clamp fields of `attr` after the `shim_sched_getattr` call
(`src/stress-schedpolicy.c` lines 177-184). -/
def attrRead (env : IterEnv) : AttrIn :=
  if env.getattrRet < 0 then ⟨0, 0⟩ else ⟨env.attrMin, env.attrMax⟩

/-- The utilization-clamp accumulators of `stress_schedpolicy`
(`src/stress-schedpolicy.c` lines 57-60): `sched_util_min`,
`sched_util_max`, `sched_util_max_value` are `uint32_t`, `counter` an
`int`. -/
structure ClampState where
  sched_util_min : Nat
  sched_util_max : Nat
  sched_util_max_value : Nat
  counter : Nat
deriving DecidableEq

/-- Initial values of the clamp accumulators
(`src/stress-schedpolicy.c` lines 57-60): `sched_util_min = ~0` on a
32-bit unsigned is `2^32 - 1`. -/
def initClampState : ClampState := ⟨2 ^ 32 - 1, 0, 0, 0⟩

/-- The observation half of one clamp-accumulator update
(`src/stress-schedpolicy.c` lines 186-204): when the read-back
`attr.sched_util_max` is non-zero, the running min/max are updated, the min
is sanity-clamped to the max, and a zero (uninitialized)
`sched_util_max_value` is seeded from the running max; otherwise nothing
changes. -/
def clampObserve (s : ClampState) (a : AttrIn) : ClampState :=
  if a.aMax ≠ 0 then
    { sched_util_min :=
        if (if s.sched_util_min > a.aMin then a.aMin else s.sched_util_min) >
            (if s.sched_util_max < a.aMax then a.aMax else s.sched_util_max) then
          (if s.sched_util_max < a.aMax then a.aMax else s.sched_util_max)
        else (if s.sched_util_min > a.aMin then a.aMin else s.sched_util_min),
      sched_util_max := if s.sched_util_max < a.aMax then a.aMax else s.sched_util_max,
      sched_util_max_value :=
        if s.sched_util_max_value = 0 then
          (if s.sched_util_max < a.aMax then a.aMax else s.sched_util_max)
        else s.sched_util_max_value,
      counter := s.counter }
  else s

/-- The ratchet half of one clamp-accumulator update
(`src/stress-schedpolicy.c` lines 214-223):
`if ((counter++ > 256) && (sched_util_max_value > 0) &&
(sched_util_max_value > sched_util_min))` the ratchet value is decremented
and `counter` reset; the post-increment of `counter` happens in every
case. -/
def clampDecrement (s1 : ClampState) : ClampState :=
  if s1.counter > 256 ∧ s1.sched_util_max_value > 0 ∧
      s1.sched_util_max_value > s1.sched_util_min then
    { s1 with sched_util_max_value := s1.sched_util_max_value - 1, counter := 0 }
  else
    { s1 with counter := s1.counter + 1 }

/-- One iteration's update of the utilization-clamp accumulators
(`src/stress-schedpolicy.c` lines 186-223): the observation phase followed
by the ratchet phase. -/
def clampStep (s : ClampState) (a : AttrIn) : ClampState :=
  clampDecrement (clampObserve s a)

/-- `clampStep` iterated `n` times with a constant attribute reading. -/
def clampIterN (a : AttrIn) : Nat → ClampState → ClampState
  | 0, s => s
  | n + 1, s => clampStep (clampIterN a n s) a

/-- `clampStep` folded over an arbitrary stream of attribute readings. -/
def clampRun (s : ClampState) : List AttrIn → ClampState
  | [] => s
  | a :: rest => clampRun (clampStep s a) rest

/-- Per-worker loop state of `stress_schedpolicy`: the round-robin policy
index (line 56) and the clamp accumulators. -/
structure SchedState where
  policy : Nat
  clamp : ClampState
deriving DecidableEq

/-- One full iteration of the `do ... while` loop body of
`stress_schedpolicy` (`src/stress-schedpolicy.c` lines 71-230): the
`continue` at line 116 jumps straight to the loop condition, skipping the
param/attr blocks, the policy advance and `inc_counter`; otherwise the
param and attr blocks run, the clamp accumulators are updated, the policy
index advances round-robin and the bogo counter is incremented. -/
def schedFullIter (ps : List Int) (s : SchedState) (env : IterEnv) : SchedState × IterOut :=
  let out := schedIter ps s.policy env
  if out.skipped then (s, out)
  else
    ({ policy := (s.policy + 1) % ps.length,
       clamp := clampStep s.clamp (attrRead env) },
     { out with fails := out.fails ++ paramChecks env ++ attrChecks env })

/-- The worker loop of `stress_schedpolicy` run over a finite stream of
iteration environments (the stream length models the number of iterations
`keep_stressing()` allows).  Returns the final state, the number of
`inc_counter` bogo-operation increments, and all emitted fail events in
order. -/
def schedLoop (ps : List Int) : List IterEnv → SchedState → SchedState × Nat × List FailEvent
  | [], s => (s, 0, [])
  | env :: rest, s =>
      let so := schedFullIter ps s env
      let rest' := schedLoop ps rest so.1
      (rest'.1, (if so.2.skipped then 0 else 1) + rest'.2.1, so.2.fails ++ rest'.2.2)

/-- Observable outcome of one call of the `stress_schedpolicy` entry
point. -/
structure EntryOut where
  status : Int
  infoMsgs : Nat
  ops : Nat
  fails : List FailEvent
deriving DecidableEq

/-- The `stress_schedpolicy` entry point
(`src/stress-schedpolicy.c` lines 54-233): with an empty policy table it
emits the `pr_inf` message only for instance 0 and returns
`EXIT_NOT_IMPLEMENTED` before touching the loop; otherwise it runs the
loop over the supplied iteration environments and returns
`EXIT_SUCCESS`. -/
def stress_schedpolicy (ps : List Int) (inst : Nat) (envs : List IterEnv) : EntryOut :=
  if ps.length = 0 then
    { status := EXIT_NOT_IMPLEMENTED, infoMsgs := if inst = 0 then 1 else 0,
      ops := 0, fails := [] }
  else
    let r := schedLoop ps envs ⟨0, initClampState⟩
    { status := EXIT_SUCCESS, infoMsgs := 0, ops := r.2.1, fails := r.2.2 }

/-- A concrete iteration environment in which every syscall succeeds, the
realtime priority range reads back as `[1, 99]`, the effective policy reads
back as `SCHED_OTHER` (0), and the extended attributes read back with both
clamp fields zero. -/
def envA : IterEnv where
  mwc1 := false
  mwc32 := 0
  rrRet := 0
  prioMin := fun _ => 1
  prioMax := fun _ => 99
  setRet := 0
  setErrno := 0
  getRet := 0
  getparamRet := 0
  getparamErrno := 0
  setparamRet := 0
  setparamErrno := 0
  getattrRet := 0
  getattrErrno := 0
  attrMin := 0
  attrMax := 0
  setattrRet := 0
  setattrErrno := 0

/-- Like `envA` but the effective policy reads back as `SCHED_FIFO` (1). -/
def envB : IterEnv := { envA with getRet := 1 }

/-- A concrete environment for a kernel that reports the priority range of
`SCHED_FIFO` as `[1, 99]` and every other policy argument as
unsupported (`-1`). -/
def envC2 : IterEnv :=
  { envA with
    prioMin := fun p => if p = SCHED_FIFO then 1 else -1,
    prioMax := fun p => if p = SCHED_FIFO then 99 else -1 }

/-- A concrete environment family for priority sampling: the queried range
reads back as `[1, 3]` and the 32-bit random draw is `r`. -/
def env3 (r : Nat) : IterEnv :=
  { envA with mwc32 := r, prioMin := fun _ => 1, prioMax := fun _ => 3 }

end SchedPolicy

/-! ## Theorems -/

namespace Sighup

/-- C5: in Variant A (`stress_sighup_raise_signal`), the parent's wait on
the forked child is retried whenever it fails with `EINTR`; once the wait
completes, the trial is reported as the handler-not-called
(`ProtocolViolation`) failure if and only if the shared `signalled` flag
was never set; and any wait failure other than `EINTR` is a hard per-trial
failure. -/
theorem raise_signal_wait_spec (sig : Bool) (e : Int) (st : Int) (ws : List WaitResult) :
    (raiseSignalWait sig (WaitResult.err EINTR :: ws) = raiseSignalWait sig ws) ∧
    (e ≠ EINTR → raiseSignalWait sig (WaitResult.err e :: ws) =
      some (EXIT_FAILURE, some SighupFail.waitpidFailed)) ∧
    (∀ r, raiseSignalWait sig (WaitResult.ok st :: ws) = some r →
      (r = (EXIT_FAILURE, some SighupFail.handlerNotCalled) ↔ sig = false)) := by
  refine ⟨by simp [raiseSignalWait], fun he => by simp [raiseSignalWait, he], fun r hr => ?_⟩
  cases sig <;> simp [raiseSignalWait] at hr <;> simp [← hr, EXIT_FAILURE]

/-- Witness for `raise_signal_wait_spec` at concrete inputs. -/
theorem raise_signal_wait_spec_witness :
    (5 : Int) ≠ EINTR ∧
    raiseSignalWait false [WaitResult.err 5] =
      some (EXIT_FAILURE, some SighupFail.waitpidFailed) :=
  ⟨by decide, (raise_signal_wait_spec false 5 0 []).2.1 (by decide)⟩

/-- C6: in Variant B (`stress_sighup_process_group`), on every terminating
exit path of the parent after forking child A — a non-`EINTR` wait failure
or a completed wait, through any number of `EINTR` retries — if child B's
pid was recorded in the shared block (pid not 0), `stress_kill_pid_wait` is
invoked on it. -/
theorem process_group_wait_cleans_up (pid : Int) (ws : List WaitResult)
    (st : Int) (b : Bool) (h : processGroupWait pid ws = some (st, b)) (hp : pid ≠ 0) :
    b = true := by
  induction ws with
  | nil => simp [processGroupWait] at h
  | cons w rest ih =>
      cases w with
      | ok s =>
          simp [processGroupWait] at h
          simp [← h.2, bne, hp]
      | err e =>
          by_cases he : e = EINTR
          · rw [processGroupWait, if_pos he] at h
            exact ih h
          · rw [processGroupWait, if_neg he] at h
            simp at h
            simp [← h.2, bne, hp]

/-- Witness for `process_group_wait_cleans_up` at concrete inputs. -/
theorem process_group_wait_cleans_up_witness :
    processGroupWait 7 [WaitResult.ok 0] = some (0, true) ∧
    (7 : Int) ≠ 0 ∧ true = true :=
  ⟨by decide, by decide,
    process_group_wait_cleans_up 7 [WaitResult.ok 0] 0 true (by decide) (by decide)⟩

/-- C7: child A's zero-length pipe read returns at most 0 bytes (POSIX),
hence always fewer than 1, so child A always takes the branch that records
`trial_start_time` and raises the unblockable fatal signal against itself,
regardless of whether child B wrote its readiness byte. -/
theorem childA_probe_always_fires (r : Int) (h : zeroLenReadSpec r) :
    childAProbe r = ⟨true, true⟩ := by
  unfold zeroLenReadSpec at h
  unfold childAProbe
  rw [if_pos (by omega)]

/-- Witness for `childA_probe_always_fires` at read result 0. -/
theorem childA_probe_always_fires_witness :
    zeroLenReadSpec 0 ∧ childAProbe 0 = ⟨true, true⟩ :=
  ⟨by norm_num [zeroLenReadSpec], childA_probe_always_fires 0 (by norm_num [zeroLenReadSpec])⟩

/-- C8: an invocation of the SIGHUP handler changes the accumulators
`latency`/`count` only when `t_start > 0` at the moment the signal lands;
in particular when `t_start = 0` (no active trial) neither accumulator
changes. -/
theorem sighup_handler_accumulates_only_when_active
    (mapped : Bool) (now : Rat) (s : SighupInfo) :
    (((stress_sighup_handler mapped now s).latency ≠ s.latency ∨
      (stress_sighup_handler mapped now s).count ≠ s.count) → s.t_start > 0) ∧
    (s.t_start = 0 → (stress_sighup_handler mapped now s).latency = s.latency ∧
      (stress_sighup_handler mapped now s).count = s.count) := by
  have hkey : ¬ s.t_start > 0 →
      (stress_sighup_handler mapped now s).latency = s.latency ∧
      (stress_sighup_handler mapped now s).count = s.count := by
    intro hns
    unfold stress_sighup_handler
    by_cases hm : mapped
    · rw [if_pos hm, if_neg (fun hcond => hns hcond.1)]
      exact ⟨rfl, rfl⟩
    · rw [if_neg hm]
      exact ⟨rfl, rfl⟩
  constructor
  · intro hchange
    by_contra hns
    rcases hkey hns with ⟨hl, hc⟩
    tauto
  · intro h0
    apply hkey
    rw [h0]
    exact lt_irrefl 0

/-- Witness for `sighup_handler_accumulates_only_when_active`: with no
active trial the accumulators stay at 0. -/
theorem sighup_handler_accumulates_only_when_active_witness :
    (stress_sighup_handler true 1 ⟨false, 0, 0, 0, 0⟩).latency = 0 ∧
    (stress_sighup_handler true 1 ⟨false, 0, 0, 0, 0⟩).count = 0 :=
  (sighup_handler_accumulates_only_when_active true 1 ⟨false, 0, 0, 0, 0⟩).2 rfl

/-- C10: whenever the SIGHUP handler runs with the shared block mapped it
sets `signalled` unconditionally; accumulation additionally requires the
computed latency `now - t_start` to be strictly positive, and when it
happens `latency` grows by that strictly positive amount while `count`
grows by exactly 1 — the two accumulators change together or not at
all. -/
theorem sighup_handler_signals_and_accumulates_strictly (now : Rat) (s : SighupInfo) :
    (stress_sighup_handler true now s).signalled = true ∧
    (s.t_start > 0 ∧ now - s.t_start > 0 →
      (stress_sighup_handler true now s).latency = s.latency + (now - s.t_start) ∧
      s.latency < (stress_sighup_handler true now s).latency ∧
      (stress_sighup_handler true now s).count = s.count + 1) ∧
    (¬(s.t_start > 0 ∧ now - s.t_start > 0) →
      (stress_sighup_handler true now s).latency = s.latency ∧
      (stress_sighup_handler true now s).count = s.count) := by
  refine ⟨?_, fun hc => ?_, fun hc => ?_⟩
  · unfold stress_sighup_handler
    rw [if_pos rfl]
    split_ifs <;> rfl
  · unfold stress_sighup_handler
    rw [if_pos rfl, if_pos hc]
    exact ⟨rfl, by simp only []; linarith [hc.2], rfl⟩
  · unfold stress_sighup_handler
    rw [if_pos rfl, if_neg hc]
    exact ⟨rfl, rfl⟩

/-- Witness for `sighup_handler_signals_and_accumulates_strictly`: a
delivery during an active trial started at time 1 and handled at time 3
accumulates latency 2 and one sample. -/
theorem sighup_handler_signals_and_accumulates_strictly_witness :
    (stress_sighup_handler true 3 ⟨false, 0, 0, 1, 0⟩).latency = 0 + (3 - 1) ∧
    0 < (stress_sighup_handler true 3 ⟨false, 0, 0, 1, 0⟩).latency ∧
    (stress_sighup_handler true 3 ⟨false, 0, 0, 1, 0⟩).count = 0 + 1 :=
  (sighup_handler_signals_and_accumulates_strictly 3 ⟨false, 0, 0, 1, 0⟩).2.1
    (by norm_num)

end Sighup

namespace SchedPolicy

/-- C9 counterexample: for the worker with instance index 1 and an empty
policy table, the entry point emits zero informational messages, not
exactly one as the claim states for every worker. -/
theorem schedpolicy_empty_info_cex :
    (stress_schedpolicy [] 1 []).status = EXIT_NOT_IMPLEMENTED ∧
    (stress_schedpolicy [] 1 []).infoMsgs = 0 ∧
    (0 : Nat) ≠ 1 := by decide

/-- C9 amended: with an empty policy table the entry point returns the
distinct `EXIT_NOT_IMPLEMENTED` status (not a failure) with zero
operation-count increments, and emits exactly one informational message
for the worker with instance index 0 and none for any other worker. -/
theorem schedpolicy_empty_not_implemented (inst : Nat) (envs : List IterEnv) :
    (stress_schedpolicy [] inst envs).status = EXIT_NOT_IMPLEMENTED ∧
    (stress_schedpolicy [] inst envs).ops = 0 ∧
    (stress_schedpolicy [] inst envs).fails = [] ∧
    (stress_schedpolicy [] inst envs).infoMsgs = (if inst = 0 then 1 else 0) ∧
    EXIT_NOT_IMPLEMENTED ≠ EXIT_FAILURE ∧ EXIT_NOT_IMPLEMENTED ≠ EXIT_SUCCESS := by
  unfold stress_schedpolicy
  refine ⟨rfl, rfl, rfl, rfl, by decide, by decide⟩

/-- C2: at realtime trials the code passes the loop index `policy` — not
the policy constant `policies[policy]` handed to `sched_setscheduler` — to
`sched_get_priority_min`/`max`.  On a platform without `SCHED_IDLE`, the
first trial applies `SCHED_FIFO` (constant 1) but queries the range of
argument 0 (`SCHED_OTHER` on Linux): with a kernel reporting `SCHED_FIFO`'s
range as `[1, 99]` and the other arguments as unsupported, the trial is
skipped and no set call is made at all. -/
theorem schedpolicy_range_query_uses_index :
    noIdlePolicies.getD 0 0 = SCHED_FIFO ∧
    envC2.prioMin SCHED_FIFO = 1 ∧ envC2.prioMax SCHED_FIFO = 99 ∧
    (schedIter noIdlePolicies 0 envC2).queriedRangePolicy = some 0 ∧
    (0 : Int) ≠ SCHED_FIFO ∧
    (schedIter noIdlePolicies 0 envC2).skipped = true ∧
    (schedIter noIdlePolicies 0 envC2).setCalled = none := by decide

/-- C3 counterexample: in a realtime trial whose queried range reads back
as `[1, 3]`, no value of the 32-bit random source makes the priority passed
to `sched_setscheduler` equal to the range maximum 3. -/
theorem schedpolicy_priority_max_never_sampled_cex :
    ¬ ∃ r : Nat, r < 2 ^ 32 ∧
      (schedIter linuxPolicies 1 (env3 r)).setCalled = some (SCHED_FIFO, 3) := by
  rintro ⟨r, -, h⟩
  have h2 : r % 2 < 2 := Nat.mod_lt _ (by norm_num)
  simp [schedIter, linuxPolicies, env3, envA, isRealtime, sampledPriority,
    SCHED_FIFO, SCHED_RR, SCHED_IDLE] at h
  omega

/-- C3 amended: for a realtime trial with queried range `min < max`
(and `max - min ≤ 2^32`), the sampled priority always lies in the
half-open interval `[min, max - 1]`, and every value of that interval —
but never `max` itself — is attained for some value of the 32-bit random
source. -/
theorem sampled_priority_uniform_on_clipped_range
    (minP maxP : Int) (h : minP < maxP) (hw : maxP - minP ≤ 2 ^ 32) :
    (∀ r : Nat, minP ≤ sampledPriority minP maxP r ∧
      sampledPriority minP maxP r ≤ maxP - 1) ∧
    (∀ v : Int, minP ≤ v → v ≤ maxP - 1 →
      ∃ r : Nat, r < 2 ^ 32 ∧ sampledPriority minP maxP r = v) := by
  have ht : ((maxP - minP).toNat : Int) = maxP - minP := Int.toNat_of_nonneg (by omega)
  constructor
  · intro r
    have hmod : r % (maxP - minP).toNat < (maxP - minP).toNat :=
      Nat.mod_lt _ (by omega)
    unfold sampledPriority
    omega
  · intro v hv1 hv2
    refine ⟨(v - minP).toNat, by omega, ?_⟩
    have hlt : (v - minP).toNat < (maxP - minP).toNat := by omega
    unfold sampledPriority
    rw [Nat.mod_eq_of_lt hlt]
    omega

/-- Witness for `sampled_priority_uniform_on_clipped_range` at the range
`[1, 3]` and random value 5. -/
theorem sampled_priority_uniform_on_clipped_range_witness :
    (1 : Int) < 3 ∧ (3 : Int) - 1 ≤ 2 ^ 32 ∧
    1 ≤ sampledPriority 1 3 5 ∧ sampledPriority 1 3 5 ≤ 3 - 1 :=
  ⟨by norm_num, by norm_num,
    (sampled_priority_uniform_on_clipped_range 1 3 (by norm_num) (by norm_num)).1 5⟩

/-- The observation phase with the constant attribute reading `⟨0, M⟩`,
`0 < M`, from a state with observed min 0, observed max `M` and a live
ratchet value `0 < v`, changes nothing. -/
theorem clampObserve_const (M v c : Nat) (hM : 0 < M) (hv : 0 < v) :
    clampObserve ⟨0, M, v, c⟩ ⟨0, M⟩ = ⟨0, M, v, c⟩ := by
  unfold clampObserve
  simp [hM.ne', hv.ne']

/-- One clamp update with a constant attribute reading `⟨0, M⟩` from a
state with observed min 0, observed max `M`, a live ratchet value `v` and a
counter not yet past 256 only bumps the counter. -/
theorem clampStep_const_small (M v c : Nat) (hM : 0 < M) (hv : 0 < v) (hc : c ≤ 256) :
    clampStep ⟨0, M, v, c⟩ ⟨0, M⟩ = ⟨0, M, v, c + 1⟩ := by
  unfold clampStep
  rw [clampObserve_const M v c hM hv]
  unfold clampDecrement
  rw [if_neg (by show ¬(c > 256 ∧ v > 0 ∧ v > 0); omega)]

/-- Iterating the clamp update from a fresh counter with a constant
attribute reading leaves the ratchet value untouched for the first 257
iterations, the counter recording the iteration count. -/
theorem clampIterN_const (M v : Nat) (hM : 0 < M) (hv : 0 < v) :
    ∀ i, i ≤ 257 → clampIterN ⟨0, M⟩ i ⟨0, M, v, 0⟩ = ⟨0, M, v, i⟩ := by
  intro i
  induction i with
  | zero => intro _; rfl
  | succ n ih =>
      intro hn
      unfold clampIterN
      rw [ih (by omega)]
      exact clampStep_const_small M v n hM hv (by omega)

/-- C4 counterexample: with clamp support enabled (constant reading
`min = 0`, `max = 10`) and observed min 0 strictly below the current
ratchet value 10, the ratchet value is still 10 — unchanged, not
decremented by exactly 1 — after 257 loop iterations. -/
theorem clamp_ratchet_not_257_cex :
    (clampIterN ⟨0, 10⟩ 257 ⟨0, 10, 10, 0⟩).sched_util_max_value = 10 ∧
    (10 : Nat) ≠ 10 - 1 := by
  refine ⟨?_, by decide⟩
  rw [clampIterN_const 10 10 (by decide) (by decide) 257 (le_refl 257)]

/-- The observation phase preserves the floor invariant: the ratchet value
is either still uninitialized (0) or at least the observed minimum. -/
theorem clampObserve_floor (s : ClampState) (a : AttrIn)
    (h : s.sched_util_max_value = 0 ∨ s.sched_util_min ≤ s.sched_util_max_value) :
    (clampObserve s a).sched_util_max_value = 0 ∨
      (clampObserve s a).sched_util_min ≤ (clampObserve s a).sched_util_max_value := by
  unfold clampObserve
  split_ifs <;> simp_all <;> omega

/-- The ratchet phase preserves the floor invariant. -/
theorem clampDecrement_floor (s1 : ClampState)
    (h : s1.sched_util_max_value = 0 ∨ s1.sched_util_min ≤ s1.sched_util_max_value) :
    (clampDecrement s1).sched_util_max_value = 0 ∨
      (clampDecrement s1).sched_util_min ≤ (clampDecrement s1).sched_util_max_value := by
  unfold clampDecrement
  split_ifs with hcond
  · simp_all
    omega
  · simp_all

/-- A single clamp update preserves the floor invariant. -/
theorem clampStep_floor (s : ClampState) (a : AttrIn)
    (h : s.sched_util_max_value = 0 ∨ s.sched_util_min ≤ s.sched_util_max_value) :
    (clampStep s a).sched_util_max_value = 0 ∨
      (clampStep s a).sched_util_min ≤ (clampStep s a).sched_util_max_value :=
  clampDecrement_floor (clampObserve s a) (clampObserve_floor s a h)

/-- The floor invariant is preserved across any finite run of clamp
updates. -/
theorem clampRun_floor (as : List AttrIn) :
    ∀ s : ClampState,
      s.sched_util_max_value = 0 ∨ s.sched_util_min ≤ s.sched_util_max_value →
      (clampRun s as).sched_util_max_value = 0 ∨
        (clampRun s as).sched_util_min ≤ (clampRun s as).sched_util_max_value := by
  induction as with
  | nil => intro s h; exact h
  | cons a rest ih =>
      intro s h
      exact ih (clampStep s a) (clampStep_floor s a h)

/-- C4 amended: with clamp support enabled and the observed min (0) strictly
below the live ratchet value `v`, the ratchet value is unchanged through the
first 257 loop iterations and is decremented by exactly 1 on the 258th
(the `counter++ > 256` post-increment test first fires then); and across
any sequence of iterations the ratchet value never falls below the observed
minimum once initialized (the uninitialized value 0 being its own case). -/
theorem clamp_ratchet_period_258_and_floor (M v : Nat) (hM : 0 < M) (hv : 0 < v) :
    (∀ i, i ≤ 257 → (clampIterN ⟨0, M⟩ i ⟨0, M, v, 0⟩).sched_util_max_value = v) ∧
    (clampIterN ⟨0, M⟩ 258 ⟨0, M, v, 0⟩).sched_util_max_value = v - 1 ∧
    (∀ (s : ClampState) (as : List AttrIn),
      s.sched_util_max_value = 0 ∨ s.sched_util_min ≤ s.sched_util_max_value →
      (clampRun s as).sched_util_max_value = 0 ∨
        (clampRun s as).sched_util_min ≤ (clampRun s as).sched_util_max_value) := by
  refine ⟨fun i hi => by rw [clampIterN_const M v hM hv i hi], ?_,
    fun s as h => clampRun_floor as s h⟩
  show (clampIterN ⟨0, M⟩ (257 + 1) ⟨0, M, v, 0⟩).sched_util_max_value = v - 1
  unfold clampIterN
  rw [clampIterN_const M v hM hv 257 (by omega)]
  unfold clampStep
  rw [clampObserve_const M v 257 hM hv]
  unfold clampDecrement
  rw [if_pos (by show (257 : Nat) > 256 ∧ v > 0 ∧ v > 0; omega)]

/-- Witness for `clamp_ratchet_period_258_and_floor` at `M = v = 1`. -/
theorem clamp_ratchet_period_258_and_floor_witness :
    0 < 1 ∧ (clampIterN ⟨0, 1⟩ 258 ⟨0, 1, 1, 0⟩).sched_util_max_value = 1 - 1 :=
  ⟨by decide, (clamp_ratchet_period_258_and_floor 1 1 (by decide) (by decide)).2.1⟩

/-- C1 counterexample: a run of two iterations in which the first trial
sets `SCHED_IDLE` successfully but `sched_getscheduler` reads back
`SCHED_OTHER`.  The mismatch is surfaced as the consistency `pr_fail`
event, yet the loop performs the second iteration as well (two bogo-op
increments) and the entry point returns `EXIT_SUCCESS`, not a failure
status — so the failure is not run-terminating as the claim states. -/
theorem schedpolicy_mismatch_not_terminating_cex :
    (stress_schedpolicy linuxPolicies 0 [envA, envB]).fails = [FailEvent.policyMismatch] ∧
    (stress_schedpolicy linuxPolicies 0 [envA, envB]).ops = 2 ∧
    (stress_schedpolicy linuxPolicies 0 [envA, envB]).status = EXIT_SUCCESS ∧
    EXIT_SUCCESS ≠ EXIT_FAILURE := by decide

/-- C1 amended: after a successful policy-set the effective policy is
re-queried and a mismatch is surfaced as the consistency `pr_fail` event of
that iteration; but the failure is not run-terminating — the worker's loop
carries on and the entry point returns `EXIT_SUCCESS` for every run over a
non-empty policy table. -/
theorem schedpolicy_mismatch_surfaced_not_terminating
    (ps : List Int) (inst : Nat) (envs : List IterEnv)
    (i : Nat) (s : SchedState) (env : IterEnv) (ret : Int) (pp : Int × Int)
    (hps : ps ≠ []) :
    (stress_schedpolicy ps inst envs).status = EXIT_SUCCESS ∧
    (ret ≥ 0 → env.getRet ≥ 0 → env.getRet ≠ ps.getD i 0 →
      checkAfterSet ps i env ret = [FailEvent.policyMismatch]) ∧
    ((schedIter ps s.policy env).setCalled = some pp →
      FailEvent.policyMismatch ∈ checkAfterSet ps s.policy env env.setRet →
      FailEvent.policyMismatch ∈ (schedFullIter ps s env).2.fails) := by
  refine ⟨?_, ?_, ?_⟩
  · unfold stress_schedpolicy
    rw [if_neg (by simp [hps])]
  · intro h1 h2 h3
    unfold checkAfterSet
    rw [if_neg (by omega), if_neg (by omega), if_pos h3]
  · intro hset hmem
    have hkey : (schedIter ps s.policy env).skipped = false ∧
        (schedIter ps s.policy env).fails = checkAfterSet ps s.policy env env.setRet := by
      simp only [schedIter] at hset ⊢
      split_ifs at hset ⊢ <;> simp_all
    simp only [schedFullIter, hkey.1, Bool.false_eq_true, if_false]
    simp only [hkey.2]
    exact List.mem_append_left _ (List.mem_append_left _ hmem)

/-- Witness for `schedpolicy_mismatch_surfaced_not_terminating` on the full
Linux policy table. -/
theorem schedpolicy_mismatch_surfaced_not_terminating_witness :
    linuxPolicies ≠ [] ∧
    (stress_schedpolicy linuxPolicies 0 []).status = EXIT_SUCCESS :=
  ⟨by decide,
    (schedpolicy_mismatch_surfaced_not_terminating linuxPolicies 0 [] 0
      ⟨0, initClampState⟩ envA 0 (SCHED_IDLE, 0) (by decide)).1⟩

end SchedPolicy

end StressNG
